import Mathlib

/-!
Verification of the `ai-agents` repository (news podcast generator backend).

This file gives a shallow embedding, in Lean 4, of the pieces of the Python
code that the specification's claims are about:

* `backend/utils/cost_tracker.py` — the pricing table, `calculate_cost`
  and the row written by `record_call`;
* `backend/agents/search_agent.py` — the post-LLM hard cap on search
  results stored into session state;
* `backend/agents/audio_generate_agent.py` — the parallel Edge-TTS
  combination loop, `create_silence_audio` / `combine_audio_segments`,
  the OpenAI `create_podcast` pipeline, TTS-engine selection, and the
  session-saving discipline of `audio_generate_agent_run`;
* `backend/tools/crawl4ai_scraper.py` — the parallel scraping fan-in
  (`_scrape_urls_async`) and the per-URL scrape (`_scrape_single_url`);
* `backend/tools/ui_manager.py` — `ui_manager_run`'s toggle-state update.

Python floats are modelled as rationals (`ℚ`), machine integers as `ℤ`/`ℕ`,
audio clips as lists of samples, dictionaries as association lists, and
calls into external libraries (TTS providers, the crawler, librosa
resampling, the file system) as explicit function or `Option`/`Except`
parameters so that every theorem quantifies over the external world's
behaviour.
-/

set_option autoImplicit false

namespace AiAgents

/-! ### Python-dictionary values and association-list state

Session state in the backend is a JSON-compatible Python dict.  We model the
values with a small inductive type and the dict itself as an association
list on string keys, with Python's assignment semantics (`d[k] = v` replaces
the binding in place if the key exists, else appends it). -/

inductive PyVal where
  | none : PyVal
  | bool (b : Bool) : PyVal
  | int (n : ℤ) : PyVal
  | str (s : String) : PyVal
  | list (l : List PyVal) : PyVal
  | dict (d : List (String × PyVal)) : PyVal

/-- Python truthiness of a value (`bool(v)`), as used by `if v:` tests. -/
def PyVal.truthy : PyVal → Bool
  | .none => false
  | .bool b => b
  | .int n => n ≠ 0
  | .str s => s ≠ ""
  | .list l => !l.isEmpty
  | .dict d => !d.isEmpty

/-- Lookup of a key in a Python dict (`d.get(k)` without default):
first binding wins, `Option.none` when the key is absent. -/
def pyGet (d : List (String × PyVal)) (k : String) : Option PyVal :=
  match d with
  | [] => Option.none
  | (k', v) :: rest => if k' = k then some v else pyGet rest k

/-- `d.get(k, dflt)`. -/
def pyGetD (d : List (String × PyVal)) (k : String) (dflt : PyVal) : PyVal :=
  (pyGet d k).getD dflt

/-- Python dict assignment `d[k] = v`: replace the first binding of `k`
if present, otherwise append the new binding at the end. -/
def pySet (d : List (String × PyVal)) (k : String) (v : PyVal) : List (String × PyVal) :=
  match d with
  | [] => [(k, v)]
  | (k', v') :: rest =>
      if k' = k then (k', v) :: rest else (k', v') :: pySet rest k v

/-! ### `backend/utils/cost_tracker.py`

The pricing table `PRICING` is a dict from model names to per-key rates per
1M tokens; `calculate_cost` turns a `TokenUsage` into a `CostRecord`;
`record_call` inserts a row into the `api_calls` SQLite table (we model the
row that is inserted). -/

/-- One model's price table (dollars per 1M tokens), mirroring the inner
dicts of `PRICING`; keys absent from a model's dict are `Option.none`. -/
def ratesFlash : List (String × ℚ) :=
  [("input", 3/10), ("output", 5/2), ("input_audio", 1)]

def ratesPro : List (String × ℚ) :=
  [("input", 5/4), ("input_large", 5/2), ("output", 10), ("output_large", 15)]

/-- The module-level `PRICING` dict of `cost_tracker.py`. -/
def PRICING : List (String × List (String × ℚ)) :=
  [("gemini-2.5-flash", ratesFlash), ("gemini-2.5-pro", ratesPro)]

/-- `PRICING.get(model, PRICING["gemini-2.5-flash"])`. -/
def pricingGet (model : String) : List (String × ℚ) :=
  match (PRICING.lookup model) with
  | some r => r
  | Option.none => ratesFlash

/-- `model_pricing[key]`; every key used by `calculate_cost` is present in
the dict it is looked up in, so a default of `0` is never reached. -/
def rateOf (rates : List (String × ℚ)) (key : String) : ℚ :=
  (rates.lookup key).getD 0

/-- `TokenUsage` dataclass (timestamp kept as its ISO string). -/
structure TokenUsage where
  input_tokens : ℕ
  output_tokens : ℕ
  total_tokens : ℕ
  model : String
  timestamp : String
  call_id : String
  context : Option String
  deriving Repr

/-- `CostRecord` dataclass. -/
structure CostRecord where
  call_id : String
  model : String
  input_tokens : ℕ
  output_tokens : ℕ
  input_cost : ℚ
  output_cost : ℚ
  total_cost : ℚ
  timestamp : String
  context : Option String
  deriving Repr

/-- `CostTracker.calculate_cost`, ported statement by statement. -/
def calculate_cost (token_usage : TokenUsage) : CostRecord :=
  let model_pricing := pricingGet token_usage.model
  let input_cost : ℚ :=
    if token_usage.model = "gemini-2.5-pro" then
      if token_usage.input_tokens ≤ 200000 then
        ((token_usage.input_tokens : ℚ) / 1000000) * rateOf model_pricing "input"
      else
        ((token_usage.input_tokens : ℚ) / 1000000) * rateOf model_pricing "input_large"
    else
      ((token_usage.input_tokens : ℚ) / 1000000) * rateOf model_pricing "input"
  let output_cost : ℚ :=
    if token_usage.model = "gemini-2.5-pro" then
      if token_usage.input_tokens ≤ 200000 then
        ((token_usage.output_tokens : ℚ) / 1000000) * rateOf model_pricing "output"
      else
        ((token_usage.output_tokens : ℚ) / 1000000) * rateOf model_pricing "output_large"
    else
      ((token_usage.output_tokens : ℚ) / 1000000) * rateOf model_pricing "output"
  let total_cost := input_cost + output_cost
  { call_id := token_usage.call_id
    model := token_usage.model
    input_tokens := token_usage.input_tokens
    output_tokens := token_usage.output_tokens
    input_cost := input_cost
    output_cost := output_cost
    total_cost := total_cost
    timestamp := token_usage.timestamp
    context := token_usage.context }

/-- The row `record_call` inserts into the `api_calls` table (the VALUES
tuple of the `INSERT OR REPLACE`, in column order). -/
structure ApiCallRow where
  call_id : String
  model : String
  input_tokens : ℕ
  output_tokens : ℕ
  total_tokens : ℕ
  input_cost : ℚ
  output_cost : ℚ
  total_cost : ℚ
  context : Option String
  timestamp : String
  deriving Repr

/-- `CostTracker.record_call`: the inserted row; note the `total_tokens`
column is computed as `input_tokens + output_tokens` of the record. -/
def record_call (cost_record : CostRecord) : ApiCallRow :=
  { call_id := cost_record.call_id
    model := cost_record.model
    input_tokens := cost_record.input_tokens
    output_tokens := cost_record.output_tokens
    total_tokens := cost_record.input_tokens + cost_record.output_tokens
    input_cost := cost_record.input_cost
    output_cost := cost_record.output_cost
    total_cost := cost_record.total_cost
    context := cost_record.context
    timestamp := cost_record.timestamp }

/-! ### `backend/agents/audio_generate_agent.py` — Edge TTS combination

A pydub `AudioSegment` is modelled as a list of rational samples, one
sample per millisecond (pydub's `len` and slicing are millisecond-based),
so `AudioSegment.silent(duration=500)` is 500 zero samples and `+` is list
append.  `temp_files` is the `asyncio.gather` result: one `Option` per
script entry, `Option.none` for a segment whose generation failed (empty
text, TTS exception, empty or missing file, or a pydub load failure). -/

/-- `AudioSegment.silent(duration=ms)`. -/
def pydubSilent (ms : ℕ) : List ℚ := List.replicate ms 0

/-- One iteration of the combination loop of
`create_podcast_edge_tts_parallel` (lines 192-200): a missing segment is
skipped; otherwise the 500 ms silence is appended first whenever something
has already been accumulated (`len(combined) > 0`), then the segment. -/
def edge_step (combined : List ℚ) (tf : Option (List ℚ)) : List ℚ :=
  match tf with
  | Option.none => combined
  | some segment =>
      (if combined.isEmpty then combined else combined ++ pydubSilent 500) ++ segment

/-- The sequential combination loop of `create_podcast_edge_tts_parallel`
(lines 189-201), starting from `AudioSegment.empty()`. -/
def edge_combine (temp_files : List (Option (List ℚ))) : List ℚ :=
  temp_files.foldl edge_step []

/-- `create_silence_audio(silence_duration, sampling_rate)`:
`np.zeros(int(sampling_rate * silence_duration))`, with a zero-length
result for a non-positive sampling rate.  `int(x)` truncates toward zero;
`Int.toNat ⌊x⌋` agrees with it on every value that yields a non-negative
length, and both give length 0 on negative values. -/
def create_silence_audio (silence_duration : ℚ) (sampling_rate : ℤ) : List ℚ :=
  if sampling_rate ≤ 0 then []
  else List.replicate (⌊(sampling_rate : ℚ) * silence_duration⌋).toNat 0

/-- The sequence-building loop of `combine_audio_segments` (lines 253-257):
append each segment, and after every segment except the last, the silence. -/
def combine_loop (silence : List ℚ) : List (List ℚ) → List (List ℚ)
  | [] => []
  | [segment] => [segment]
  | segment :: rest => segment :: silence :: combine_loop silence rest

/-- `np.max(np.abs(xs))`, with 0 for the (unreachable) empty case. -/
def maxAbs (xs : List ℚ) : ℚ := (xs.map (fun x => |x|)).foldl max 0

/-- The amplitude normalisation at the end of `combine_audio_segments`:
divide by the peak and scale to 0.95, when the peak is positive. -/
def normalize_audio (xs : List ℚ) : List ℚ :=
  let max_amp := maxAbs xs
  if 0 < max_amp then xs.map (fun x => x / max_amp * (95/100)) else xs

/-- `combine_audio_segments(audio_segments, silence_duration, sampling_rate)`. -/
def combine_audio_segments (audio_segments : List (List ℚ))
    (silence_duration : ℚ) (sampling_rate : ℤ) : List ℚ :=
  if audio_segments.isEmpty then []
  else
    normalize_audio
      ((combine_loop (create_silence_audio silence_duration sampling_rate)
          audio_segments).flatten)

/-! ### `create_podcast` (OpenAI path) of `audio_generate_agent.py`

The OpenAI client, the speech API, librosa resampling, the intro/outro
music files and the final `sf.write` are external; they appear as explicit
parameters.  A per-entry TTS outcome is `Option (samples × sample_rate)`,
`Option.none` covering every failure `text_to_speech_openai` turns into
`None` (empty response, decode failure, API exception). -/

/-- Python's `str.lower()`; the engine names compared against are ASCII,
for which lowering characterwise is exact. -/
def pyLower (s : String) : String := String.mk (s.data.map Char.toLower)

/-- One `{"text": ..., "speaker": ...}` script entry. -/
structure ScriptEntry where
  text : String
  speaker : ℤ
  deriving Repr, DecidableEq

/-- `text_to_speech_openai`: empty (whitespace-only) text short-circuits to
`None` before any API call; otherwise the call's outcome is `api i` for the
`i`-th entry.  Voice selection never fails (it falls back to a default
voice) and does not affect the success shape, so it is not modelled. -/
def text_to_speech_openai (api : ℕ → Option (List ℚ × ℤ)) (i : ℕ)
    (entry : ScriptEntry) : Option (List ℚ × ℤ) :=
  if entry.text.trim = "" then Option.none else api i

/-- One iteration of the generation loop of `create_podcast`
(lines 403-433).  State: `(generated_segments, sampling_rate_detected)`.
A failed entry leaves the state unchanged; a successful one appends its
audio, detecting the sample rate from the first success, resampling on a
mismatch (`resample ... = Option.none` models the `except` branch, which
keeps the original audio and resets the detected rate). -/
def podcast_step (resample : List ℚ → ℤ → ℤ → Option (List ℚ))
    (st : List (List ℚ) × Option ℤ) (result : Option (List ℚ × ℤ)) :
    List (List ℚ) × Option ℤ :=
  match result with
  | Option.none => st
  | some (segment_audio, segment_rate) =>
      match st.2 with
      | Option.none => (st.1 ++ [segment_audio], some segment_rate)
      | some r0 =>
          if r0 = segment_rate then (st.1 ++ [segment_audio], some r0)
          else
            match resample segment_audio segment_rate r0 with
            | some resampled => (st.1 ++ [resampled], some r0)
            | Option.none => (st.1 ++ [segment_audio], some segment_rate)

/-- The whole generation loop of `create_podcast` over the per-entry TTS
outcomes. -/
def create_podcast_loop (results : List (Option (List ℚ × ℤ)))
    (resample : List ℚ → ℤ → ℤ → Option (List ℚ)) : List (List ℚ) × Option ℤ :=
  results.foldl (podcast_step resample) ([], Option.none)

/-- `create_podcast` (lines 364-489): engine/key/client guards, the
generation loop, the emptiness guards, `combine_audio_segments`, optional
intro/outro music concatenation, and the final write (`write audio` is
`true` when `sf.write` succeeds and the output file exists afterwards). -/
def create_podcast (tts_engine : String) (api_key : Option String)
    (client_ok : Bool) (entries : List ScriptEntry)
    (api : ℕ → Option (List ℚ × ℤ))
    (resample : List ℚ → ℤ → ℤ → Option (List ℚ))
    (silence_duration : ℚ)
    (intro_music outro_music : Option (List ℚ))
    (write : List ℚ → Bool) (output_path : String) : Option String :=
  if pyLower tts_engine ≠ "openai" then Option.none
  else if api_key.isNone then Option.none
  else if ¬ client_ok then Option.none
  else
    let results := entries.enum.map fun p => text_to_speech_openai api p.1 p.2
    let st := create_podcast_loop results resample
    if st.1.isEmpty then Option.none
    else
      match st.2 with
      | Option.none => Option.none
      | some sampling_rate_detected =>
          let full_audio :=
            combine_audio_segments st.1 silence_duration sampling_rate_detected
          if full_audio.isEmpty then Option.none
          else
            let full_audio :=
              match intro_music with
              | some m => m ++ full_audio
              | Option.none => full_audio
            let full_audio :=
              match outro_music with
              | some m => full_audio ++ m
              | Option.none => full_audio
            if write full_audio then some output_path else Option.none

/-! ### TTS-engine selection in `audio_generate_agent_run` (lines 541-574) -/

/-- The preference-free cascade (lines 554-565): Edge TTS when the
`edge_tts` package imports, else ElevenLabs when its key is loaded, else
OpenAI when its key is loaded, else Edge TTS as the final fallback.  Keys
are `true` when `load_api_key` returned a truthy (non-empty) value. -/
def tts_engine_cascade (edge_tts_available elevenlabs_key openai_key : Bool) : String :=
  if edge_tts_available then "edge"
  else if elevenlabs_key then "elevenlabs"
  else if openai_key then "openai"
  else "edge"

/-- The full engine choice: a truthy stored preference is lowercased and
used, otherwise the cascade runs; then the two availability validations
(lines 568-574) send a key-less "elevenlabs" or "openai" choice to "edge". -/
def select_tts_engine (preferred : Option String)
    (edge_tts_available elevenlabs_key openai_key : Bool) : String :=
  let chosen :=
    match preferred with
    | some p =>
        if p = "" then tts_engine_cascade edge_tts_available elevenlabs_key openai_key
        else pyLower p
    | Option.none => tts_engine_cascade edge_tts_available elevenlabs_key openai_key
  let chosen := if chosen = "elevenlabs" ∧ ¬ elevenlabs_key then "edge" else chosen
  if chosen = "openai" ∧ ¬ openai_key then "edge" else chosen

/-! ### `audio_generate_agent_run` (lines 492-624)

The run reads the script from session state, derives the flat dialog
entries, selects the engine, calls the selected TTS generator (modelled by
`tts_outcome : Except String (Option String)` — a raised exception, `None`,
or the generated file's path), and only on the success path writes the
session state back through `SessionService.save_session`.  The result of
the model is the returned message together with the state passed to
`save_session` (`Option.none` when `save_session` is never called). -/

def PyVal.isDict : PyVal → Bool
  | .dict _ => true
  | _ => false

def PyVal.asDict : PyVal → List (String × PyVal)
  | .dict d => d
  | _ => []

def PyVal.asList : PyVal → List PyVal
  | .list l => l
  | _ => []

def PyVal.asStr : PyVal → String
  | .str s => s
  | _ => ""

/-- `speaker_map = {"ALEX": 1, "MORGAN": 2}` (line 523). -/
def speakerMap (s : String) : Option ℤ :=
  if s = "ALEX" then some 1 else if s = "MORGAN" then some 2 else Option.none

/-- The dialog-flattening loop (lines 524-531): for each section, for each
dialog turn, keep the `{"text", "speaker"}` pairs whose text is truthy and
whose speaker is in `speaker_map`, in order. -/
def buildEntries (script_data : List (String × PyVal)) : List ScriptEntry :=
  ((pyGetD script_data "sections" (.list [])).asList.map fun sect =>
      (pyGetD sect.asDict "dialog" (.list [])).asList.filterMap fun dialog =>
        let speaker := (pyGetD dialog.asDict "speaker" (.str "ALEX")).asStr
        let text := (pyGetD dialog.asDict "text" (.str "")).asStr
        match speakerMap speaker with
        | some sid => if text ≠ "" then some ⟨text, sid⟩ else Option.none
        | Option.none => Option.none).flatten

/-- `os.path.basename`, for the POSIX separator. -/
def pyBasename (s : String) : String := (s.splitOn "/").getLastD s

/-- `audio_generate_agent_run`.  Returns the message and, when
`save_session` was reached, the saved state. -/
def audio_generate_agent_run (session_state : List (String × PyVal))
    (edge_tts_available elevenlabs_key openai_key : Bool)
    (tts_outcome : Except String (Option String)) :
    String × Option (List (String × PyVal)) :=
  let script_data := pyGetD session_state "generated_script" (.dict [])
  let sectionsVal := pyGetD script_data.asDict "sections" PyVal.none
  if !script_data.truthy || (script_data.isDict && !sectionsVal.truthy) then
    ("Cannot generate audio: No podcast script data found. Please generate a script first.",
      Option.none)
  else
    let session_state := pySet session_state "stage" (.str "audio")
    if script_data.isDict && (pyGet script_data.asDict "sections").isSome then
      let script_entries := buildEntries script_data.asDict
      if script_entries.isEmpty then
        ("Cannot generate audio: No dialog found in the script.", Option.none)
      else
        let preferred :=
          match pyGetD session_state "tts_engine" PyVal.none with
          | .str s => if s = "" then Option.none else some s
          | _ => Option.none
        let tts_engine :=
          select_tts_engine preferred edge_tts_available elevenlabs_key openai_key
        match tts_outcome with
        | .error e =>
            ("I encountered an error while generating the podcast audio: " ++ e ++
              ". Please try again or let me know if you'd like to proceed without audio.",
              Option.none)
        | .ok Option.none =>
            ("Failed to generate podcast audio with " ++ tts_engine ++ " TTS engine.",
              Option.none)
        | .ok (some full_audio_path) =>
            let audio_url := pyBasename full_audio_path
            let saved :=
              pySet (pySet session_state "audio_url" (.str audio_url))
                "show_audio_for_confirmation" (.bool true)
            ("I have completed your podcast. The audio has been generated using " ++
              tts_engine ++ " voices. You can listen to it in the player below.",
              some saved)
    else
      ("Cannot generate audio: Script is not in the expected format.", Option.none)

/-! ### `backend/tools/crawl4ai_scraper.py`

The crawler library is external: a crawl call is a function from the
optional extraction strategy to `Except String CrawlResult` (a raised
exception or the library's result object). -/

/-- The `LLMExtractionStrategy` object, as far as this code constructs it. -/
structure Strategy where
  provider : String
  api_token : String
  instruction : String
  deriving Repr, DecidableEq

/-- The fields of a crawl4ai result that `_scrape_single_url` reads.
String fields use `""` for both Python `None` and the empty string (the
code only ever tests their truthiness or passes them through). -/
structure CrawlMetadata where
  title : String
  authors : List String
  published_date : String
  deriving Repr, DecidableEq

structure CrawlResult where
  success : Bool
  url : String
  markdown : String
  cleaned_html : String
  html : String
  metadata : Option CrawlMetadata
  error_message : String
  deriving Repr, DecidableEq

/-- The result record of one scrape; optional fields cover the union of the
success and failure dict shapes produced by the code. -/
structure ScrapeRecord where
  original_url : String
  final_url : String
  title : String
  authors : List String
  published_date : String
  full_text : String
  error : Option String
  success : Bool
  timestamp : String
  deriving Repr, DecidableEq

/-- Python's short-circuit `a or b` on strings (empty is falsy). -/
def pyOrS (a b : String) : String := if a = "" then b else a

/-- `result.markdown.split("\n")[0]`. -/
def firstLine (s : String) : String := (s.splitOn "\n").headD ""

/-- The failure record built for an exception or a failed crawl. -/
def failureRecord (url : String) (err : String) (timestamp : String) : ScrapeRecord :=
  { original_url := url, final_url := url, title := "", authors := [],
    published_date := "", full_text := "", error := some err, success := false,
    timestamp := timestamp }

/-- Lines 140-173: turn the crawl call's outcome into the per-URL record.
The success branch truncates the content to 50000 characters and recovers
a title from the metadata or the markdown's first line; the failure branch
and the exception branch both produce the error-shaped record. -/
def recordOfCrawl (url : String) (timestamp : String)
    (r : Except String CrawlResult) : ScrapeRecord :=
  match r with
  | .error e => failureRecord url e timestamp
  | .ok res =>
      if res.success then
        let content := pyOrS res.markdown (pyOrS res.cleaned_html res.html)
        let metadata := res.metadata.getD ⟨"", [], ""⟩
        let title :=
          pyOrS metadata.title (if res.markdown ≠ "" then firstLine res.markdown else "")
        { original_url := url
          final_url := pyOrS res.url url
          title := title
          authors := metadata.authors
          published_date := metadata.published_date
          full_text := if content ≠ "" then content.take 50000 else ""
          error := Option.none
          success := true
          timestamp := "" }
      else failureRecord url (pyOrS res.error_message "Unknown error") timestamp

/-- `os.getenv` truthiness: set and non-empty. -/
def optStrTruthy : Option String → Bool
  | some s => s ≠ ""
  | Option.none => false

/-- Lines 103-126: the extraction strategy handed to `crawler.arun`.
`has_classes` is the importability of `LLMExtractionStrategy` and
`LLMConfig`; `c1`/`c2` are the outcomes of the two constructor attempts
(`Option.none` models a raised exception), tried in order. -/
def strategyUsed (has_classes : Bool) (google_api_key : Option String)
    (c1 c2 : Option Strategy) : Option Strategy :=
  if has_classes && optStrTruthy google_api_key then c1 <|> c2 else Option.none

/-- `_scrape_single_url`: crawl with the strategy when one was built, with
none otherwise, and shape the outcome into the per-URL record (the outer
`try/except` is the `Except.error` case of the crawl outcome). -/
def scrape_single_url (has_classes : Bool) (google_api_key : Option String)
    (c1 c2 : Option Strategy)
    (crawl : Option Strategy → Except String CrawlResult)
    (timestamp : String) (url : String) : ScrapeRecord :=
  recordOfCrawl url timestamp (crawl (strategyUsed has_classes google_api_key c1 c2))

/-- `_scrape_urls_async` (lines 65-95): fan out one task per URL
(`task i url` is the `i`-th gathered outcome, `Except.error` when
`asyncio.gather(..., return_exceptions=True)` returned an exception), then
fan in: an exception is replaced by the error record for that URL, any
other result is kept, in input order. -/
def scrape_urls_async (urls : List String)
    (task : ℕ → String → Except String ScrapeRecord)
    (timestamp : String) : List ScrapeRecord :=
  urls.enum.map fun p =>
    match task p.1 p.2 with
    | .error e => failureRecord p.2 e timestamp
    | .ok result => result

/-! ### `backend/tools/ui_manager.py` -/

/-- `ui_manager_run` (lines 8-38), parametrised by the `TOGGLE_UI_STATES`
list imported from `db.agent_config_v2`.  Returns the message and the
state passed to `save_session` (`Option.none` on the early-return path,
where nothing is saved). -/
def ui_manager_run (toggle_ui_states : List String)
    (state : List (String × PyVal)) (state_type : String) (active : Bool) :
    String × Option (List (String × PyVal)) :=
  if state_type = "show_sources_for_selection" ∧ active then
    ("Source selection skipped - all sources auto-selected. Proceeding to script generation.",
      Option.none)
  else
    let current_state := pySet state state_type (.bool active)
    let current_state :=
      toggle_ui_states.foldl
        (fun s ui_state =>
          if ui_state ≠ state_type then pySet s ui_state (.bool false) else s)
        current_state
    ("Updated " ++ state_type ++ ".", some current_state)

/-! ### `backend/agents/search_agent.py` — the hard cap (lines 136-145) -/

/-- One search result item (`ReturnItem` response model). -/
structure ReturnItem where
  url : String
  title : String
  description : String
  source_name : String
  tool_used : String
  published_date : String
  is_scrapping_required : Bool
  deriving Repr, DecidableEq

/-- The post-LLM hard cap of `search_agent_run`: more than five items are
trimmed to the first five; five or fewer are stored as returned (the
`elif` branch only logs a warning). -/
def cap_search_results (items : List ReturnItem) : List ReturnItem :=
  if items.length > 5 then items.take 5 else items

/-- A concrete `ReturnItem` for witnesses and counterexamples. -/
def sampleItem : ReturnItem :=
  { url := "https://example.com/a", title := "A", description := "d",
    source_name := "general", tool_used := "tavily_search",
    published_date := "", is_scrapping_required := true }

/-- A concrete session state holding a one-section, one-dialog script, for
witnesses. -/
def demoSessionState : List (String × PyVal) :=
  [("generated_script",
    .dict [("title", .str "T"),
           ("sections",
            .list [.dict [("dialog",
                           .list [.dict [("speaker", .str "ALEX"),
                                         ("text", .str "hello")]])]])])]

/-!
## Theorems
-/

theorem pyGet_pySet_same (d : List (String × PyVal)) (k : String) (v : PyVal) :
    pyGet (pySet d k v) k = some v := by
  induction d with
  | nil => simp [pySet, pyGet]
  | cons hd tl ih =>
      obtain ⟨k', v'⟩ := hd
      by_cases h : k' = k <;> simp [pySet, pyGet, h, ih]

theorem pyGet_pySet_other (d : List (String × PyVal)) (k k' : String) (v : PyVal)
    (h : k' ≠ k) : pyGet (pySet d k v) k' = pyGet d k' := by
  have hk : k ≠ k' := Ne.symm h
  induction d with
  | nil => simp [pySet, pyGet, hk]
  | cons hd tl ih =>
      obtain ⟨k₀, v₀⟩ := hd
      by_cases h0 : k₀ = k
      · subst h0
        simp [pySet, pyGet, hk]
      · by_cases h1 : k₀ = k' <;> simp [pySet, pyGet, h0, h1, h, ih]

/-- C3: for every `TokenUsage`, `calculate_cost` returns a `CostRecord`
whose `total_cost` is `input_cost + output_cost`; for model
"gemini-2.5-flash" the input cost is `(input_tokens / 1M) * 0.30` and the
output cost `(output_tokens / 1M) * 2.50`; and the row `record_call`
inserts has `total_tokens = input_tokens + output_tokens`. -/
theorem flash_cost_arithmetic :
    (∀ tu : TokenUsage,
        (calculate_cost tu).total_cost
          = (calculate_cost tu).input_cost + (calculate_cost tu).output_cost)
    ∧ (∀ tu : TokenUsage, tu.model = "gemini-2.5-flash" →
        (calculate_cost tu).input_cost = ((tu.input_tokens : ℚ) / 1000000) * (3/10)
          ∧ (calculate_cost tu).output_cost = ((tu.output_tokens : ℚ) / 1000000) * (5/2))
    ∧ (∀ cr : CostRecord,
        (record_call cr).total_tokens = cr.input_tokens + cr.output_tokens) := by
  refine ⟨fun tu => rfl, fun tu h => ?_, fun cr => rfl⟩
  obtain ⟨it, ot, tt, m, ts, cid, ctx⟩ := tu
  simp only at h
  subst h
  exact ⟨rfl, rfl⟩

/-- Witness for C3 at a concrete flash-model usage. -/
theorem flash_cost_arithmetic_witness :
    (calculate_cost ⟨1000000, 2000000, 3000000, "gemini-2.5-flash", "t", "c", Option.none⟩).input_cost
        = ((1000000 : ℚ) / 1000000) * (3/10)
    ∧ (calculate_cost ⟨1000000, 2000000, 3000000, "gemini-2.5-flash", "t", "c", Option.none⟩).output_cost
        = ((2000000 : ℚ) / 1000000) * (5/2) :=
  flash_cost_arithmetic.2.1 ⟨1000000, 2000000, 3000000, "gemini-2.5-flash", "t", "c", Option.none⟩ rfl

/-- C8: for "gemini-2.5-pro" both price tiers are selected solely from the
input token count — the 15.00 output rate applies iff
`input_tokens > 200000`, regardless of `output_tokens` — and any model
absent from `PRICING` is billed at the gemini-2.5-flash rates. -/
theorem pro_tier_and_unknown_model_fallback :
    (∀ tu : TokenUsage, tu.model = "gemini-2.5-pro" →
        (calculate_cost tu).input_cost
            = ((tu.input_tokens : ℚ) / 1000000)
                * (if tu.input_tokens ≤ 200000 then 5/4 else 5/2)
          ∧ (calculate_cost tu).output_cost
            = ((tu.output_tokens : ℚ) / 1000000)
                * (if tu.input_tokens ≤ 200000 then 10 else 15))
    ∧ (∀ tu : TokenUsage,
        tu.model ≠ "gemini-2.5-flash" → tu.model ≠ "gemini-2.5-pro" →
        (calculate_cost tu).input_cost = ((tu.input_tokens : ℚ) / 1000000) * (3/10)
          ∧ (calculate_cost tu).output_cost
            = ((tu.output_tokens : ℚ) / 1000000) * (5/2)) := by
  constructor
  · intro tu h
    obtain ⟨it, ot, tt, m, ts, cid, ctx⟩ := tu
    simp only at h
    subst h
    by_cases hin : it ≤ 200000 <;>
      simp [calculate_cost, pricingGet, rateOf, ratesPro, PRICING, hin, List.lookup]
  · intro tu h1 h2
    obtain ⟨it, ot, tt, m, ts, cid, ctx⟩ := tu
    simp only at h1 h2
    have e1 : (m == "gemini-2.5-flash") = false := beq_eq_false_iff_ne.mpr h1
    have e2 : (m == "gemini-2.5-pro") = false := beq_eq_false_iff_ne.mpr h2
    have hget : pricingGet m = ratesFlash := by
      simp [pricingGet, PRICING, List.lookup, e1, e2]
    constructor <;>
      simp [calculate_cost, hget, rateOf, ratesFlash, h2, List.lookup]

/-- Witness for C8: a gemini-2.5-pro call with a large prompt and a small
completion is billed at the large-output rate, and an unknown model falls
back to flash rates. -/
theorem pro_tier_witness :
    ((calculate_cost ⟨300000, 5, 300005, "gemini-2.5-pro", "t", "c", Option.none⟩).output_cost
        = ((5 : ℚ) / 1000000) * (if (300000 : ℕ) ≤ 200000 then 10 else 15))
    ∧ ((calculate_cost ⟨7, 11, 18, "some-other-model", "t", "c", Option.none⟩).input_cost
        = ((7 : ℚ) / 1000000) * (3/10)) :=
  ⟨(pro_tier_and_unknown_model_fallback.1
      ⟨300000, 5, 300005, "gemini-2.5-pro", "t", "c", Option.none⟩ rfl).2,
   (pro_tier_and_unknown_model_fallback.2
      ⟨7, 11, 18, "some-other-model", "t", "c", Option.none⟩
      (by decide) (by decide)).1⟩

/-- Counterexample to C1 as stated: a run whose inner agent returns a
single item stores a single item, not five. -/
theorem search_cap_counterexample :
    ¬ ((cap_search_results [sampleItem]).length = 5) := by decide

/-- C1 (amended): the stored search-result list is `items` itself when the
agent returned five or fewer items, the first five when it returned more,
and never holds more than five items; a successful run can store fewer
than five. -/
theorem search_cap_amended :
    ∀ items : List ReturnItem,
      (cap_search_results items).length ≤ 5
      ∧ (5 < items.length → cap_search_results items = items.take 5)
      ∧ (items.length ≤ 5 → cap_search_results items = items) := by
  intro items
  unfold cap_search_results
  by_cases h : items.length > 5
  · refine ⟨?_, fun _ => by simp [h], fun hle => absurd h (by omega)⟩
    simp only [h, if_pos, gt_iff_lt]
    simp [List.length_take]
  · exact ⟨by simp [h]; omega, fun hlt => absurd hlt h, fun _ => by simp [h]⟩

/-- Witness for the amended C1: seven items are trimmed to the first
five. -/
theorem search_cap_amended_witness :
    (cap_search_results (List.replicate 7 sampleItem)).length ≤ 5
    ∧ cap_search_results (List.replicate 7 sampleItem)
        = (List.replicate 7 sampleItem).take 5 :=
  ⟨(search_cap_amended (List.replicate 7 sampleItem)).1,
   (search_cap_amended (List.replicate 7 sampleItem)).2.1 (by decide)⟩

theorem combine_loop_eq_intersperse (silence : List ℚ) (segs : List (List ℚ)) :
    combine_loop silence segs = segs.intersperse silence := by
  induction segs with
  | nil => rfl
  | cons s rest ih =>
      cases rest with
      | nil => rfl
      | cons t rest' =>
          simp only [combine_loop, List.intersperse] at *
          rw [ih]

theorem intercalate_cons_eq (silence a : List ℚ) (l : List (List ℚ)) :
    List.intercalate silence (a :: l)
      = a ++ (l.map (fun s => silence ++ s)).flatten := by
  induction l generalizing a with
  | nil => simp [List.intercalate]
  | cons b l' ih =>
      have hb := ih b
      simp only [List.intercalate] at hb ⊢
      show (a :: silence :: List.intersperse silence (b :: l')).flatten
          = a ++ (List.map (fun s => silence ++ s) (b :: l')).flatten
      rw [List.flatten_cons, List.flatten_cons, hb]
      simp [List.append_assoc]

/-- Invariant of the Edge-TTS fold once the accumulator is non-empty:
each further successful segment contributes `silence ++ segment`. -/
theorem edge_combine_fold_nonempty (temp_files : List (Option (List ℚ)))
    (acc : List ℚ) (hacc : ¬ acc.isEmpty) :
    temp_files.foldl edge_step acc
      = acc ++ ((temp_files.filterMap id).map (fun s => pydubSilent 500 ++ s)).flatten := by
  induction temp_files generalizing acc with
  | nil => simp
  | cons tf rest ih =>
      cases tf with
      | none =>
          rw [List.foldl_cons]
          have hstep : edge_step acc Option.none = acc := rfl
          rw [hstep]
          simpa using ih acc hacc
      | some segment =>
          have hne : acc.isEmpty = false := by
            cases h : acc.isEmpty
            · rfl
            · exact absurd h hacc
          have hacc' : ¬ (acc ++ pydubSilent 500 ++ segment).isEmpty := by
            simp [List.isEmpty_iff] at hacc ⊢
            intro h _ _
            exact hacc h
          rw [List.foldl_cons]
          have hstep : edge_step acc (some segment) = acc ++ pydubSilent 500 ++ segment := by
            simp [edge_step, hne]
          rw [hstep, ih _ hacc']
          simp [List.filterMap_cons, List.append_assoc]

/-- C2: both combiners concatenate the successfully generated clips in
their original order with the fixed silence exactly between consecutive
clips (never before the first nor after the last), omitting failed clips
without disturbing the rest: the Edge-TTS loop equals `intercalate` of the
500 ms silence over the successful clips, and `combine_audio_segments`
equals the normalisation of `intercalate` of the `silence_duration`-second
silence over its segments. -/
theorem tts_concatenation_order :
    (∀ temp_files : List (Option (List ℚ)),
        (∀ s ∈ temp_files.filterMap id, s ≠ []) →
        edge_combine temp_files
          = List.intercalate (pydubSilent 500) (temp_files.filterMap id))
    ∧ (∀ (segs : List (List ℚ)) (dur : ℚ) (rate : ℤ), segs ≠ [] →
        combine_audio_segments segs dur rate
          = normalize_audio (List.intercalate (create_silence_audio dur rate) segs)) := by
  constructor
  · intro temp_files
    induction temp_files with
    | nil => intro _; rfl
    | cons tf rest ih =>
        intro h
        cases tf with
        | none =>
            have h1 : edge_combine (Option.none :: rest) = edge_combine rest := rfl
            have h2 : List.filterMap id (Option.none :: rest)
                = List.filterMap id rest := by simp
            rw [h1, h2]
            exact ih (by simpa using h)
        | some segment =>
            have h2 : List.filterMap id (some segment :: rest)
                = segment :: List.filterMap id rest := by simp
            have hmem : segment ∈ (some segment :: rest).filterMap id := by
              rw [h2]; exact List.mem_cons_self _ _
            have hseg : segment ≠ [] := h segment hmem
            have hstart : edge_combine (some segment :: rest)
                = rest.foldl edge_step segment := by
              simp [edge_combine, edge_step]
            have hne : ¬ segment.isEmpty := by
              simpa [List.isEmpty_iff] using hseg
            rw [hstart, edge_combine_fold_nonempty rest segment hne, h2,
              intercalate_cons_eq]
  · intro segs dur rate hne
    have hempty : segs.isEmpty = false := by
      simpa [List.isEmpty_iff] using hne
    simp only [combine_audio_segments, hempty, Bool.false_eq_true, if_false,
      combine_loop_eq_intersperse]
    rfl

/-- Witness for C2: two successful clips around one failed clip, and a
two-segment combination. -/
theorem tts_concatenation_order_witness :
    edge_combine [some [(1 : ℚ)], Option.none, some [2]]
        = List.intercalate (pydubSilent 500) [[(1 : ℚ)], [2]]
    ∧ combine_audio_segments [[(1 : ℚ)], [2]] (7/10) 24000
        = normalize_audio
            (List.intercalate (create_silence_audio (7/10) 24000) [[(1 : ℚ)], [2]]) :=
  ⟨by
      have h := tts_concatenation_order.1 [some [(1 : ℚ)], Option.none, some [2]]
        (by decide)
      simpa using h,
   tts_concatenation_order.2 [[(1 : ℚ)], [2]] (7/10) 24000 (by decide)⟩

/-- The lookup of any key after `ui_manager_run`'s reset loop: keys in the
toggle list other than `state_type` read `False`, anything else is
untouched. -/
theorem pyGet_toggle_fold (toggles : List String) (state_type : String)
    (s : List (String × PyVal)) (k : String) :
    pyGet (toggles.foldl
        (fun s t => if t ≠ state_type then pySet s t (.bool false) else s) s) k
      = if k ∈ toggles ∧ k ≠ state_type then some (.bool false) else pyGet s k := by
  induction toggles generalizing s with
  | nil => simp
  | cons t rest ih =>
      rw [List.foldl_cons]
      by_cases ht : t = state_type
      · subst ht
        rw [if_neg (by simp), ih]
        by_cases hk : k = t
        · subst hk; simp
        · simp [List.mem_cons, hk]
      · rw [if_pos ht, ih]
        by_cases hk : k ∈ rest ∧ k ≠ state_type
        · simp [hk, List.mem_cons, hk.1, hk.2]
        · rw [if_neg hk]
          by_cases hkt : k = t
          · subst hkt
            rw [pyGet_pySet_same]
            simp [List.mem_cons, ht]
          · rw [pyGet_pySet_other _ _ _ _ hkt]
            have : (k ∈ t :: rest ∧ k ≠ state_type) ↔ (k ∈ rest ∧ k ≠ state_type) := by
              simp [List.mem_cons, hkt]
            rw [if_neg (by rw [this]; exact hk)]

/-- C10: a completed, state-saving `ui_manager_run` saves `state_type`
mapped to `active` and every other `TOGGLE_UI_STATES` key mapped to
`False`, so at most one managed toggle is true; the
`show_sources_for_selection`/`True` call saves nothing. -/
theorem ui_toggle_exclusivity :
    (∀ (toggles : List String) (state : List (String × PyVal)),
        (ui_manager_run toggles state "show_sources_for_selection" true).2 = Option.none)
    ∧ (∀ (toggles : List String) (state : List (String × PyVal))
        (state_type : String) (active : Bool) (st' : List (String × PyVal)),
        (ui_manager_run toggles state state_type active).2 = some st' →
        pyGet st' state_type = some (.bool active)
        ∧ (∀ t ∈ toggles, t ≠ state_type → pyGet st' t = some (.bool false))
        ∧ (∀ t1 ∈ toggles, ∀ t2 ∈ toggles,
            pyGet st' t1 = some (.bool true) → pyGet st' t2 = some (.bool true) →
            t1 = t2)) := by
  constructor
  · intro toggles state
    simp [ui_manager_run]
  · intro toggles state state_type active st' hsave
    by_cases hskip : state_type = "show_sources_for_selection" ∧ active = true
    · simp [ui_manager_run, hskip.1, hskip.2] at hsave
    · have hst' : st' = toggles.foldl
          (fun s t => if t ≠ state_type then pySet s t (.bool false) else s)
          (pySet state state_type (.bool active)) := by
        simp only [ui_manager_run] at hsave
        rw [if_neg (by simpa using hskip)] at hsave
        simpa using hsave.symm
      subst hst'
      have hself : pyGet (toggles.foldl
          (fun s t => if t ≠ state_type then pySet s t (.bool false) else s)
          (pySet state state_type (.bool active))) state_type
          = some (.bool active) := by
        rw [pyGet_toggle_fold]
        simp [pyGet_pySet_same]
      refine ⟨hself, fun t htmem htne => ?_, fun t1 h1mem t2 h2mem h1 h2 => ?_⟩
      · rw [pyGet_toggle_fold]
        simp [htmem, htne]
      · by_cases e1 : t1 = state_type
        · by_cases e2 : t2 = state_type
          · rw [e1, e2]
          · rw [pyGet_toggle_fold] at h2
            simp [h2mem, e2] at h2
        · rw [pyGet_toggle_fold] at h1
          simp [h1mem, e1] at h1

/-- Witness for C10: updating one toggle resets the other, and the
source-selection call saves nothing. -/
theorem ui_toggle_exclusivity_witness :
    (ui_manager_run ["show_audio_for_confirmation", "show_script_for_confirmation"]
        [] "show_sources_for_selection" true).2 = Option.none
    ∧ pyGet (((ui_manager_run
          ["show_audio_for_confirmation", "show_script_for_confirmation"]
          [] "show_audio_for_confirmation" true).2).getD [])
        "show_script_for_confirmation" = some (.bool false) := by
  constructor
  · exact ui_toggle_exclusivity.1 _ _
  · have h := (ui_toggle_exclusivity.2
      ["show_audio_for_confirmation", "show_script_for_confirmation"] []
      "show_audio_for_confirmation" true
      (((ui_manager_run ["show_audio_for_confirmation", "show_script_for_confirmation"]
          [] "show_audio_for_confirmation" true).2).getD []) rfl)
    exact h.2.1 "show_script_for_confirmation" (by decide) (by decide)

/-- C5: a key-less "elevenlabs" or "openai" preference falls back to the
"edge" engine instead of failing, and with no stored preference the
selection cascade is: "edge" when `edge_tts` imports, else "elevenlabs"
given its key, else "openai" given its key, else "edge". -/
theorem tts_engine_selection_fallback :
    (∀ (p : String) (edge ok : Bool), pyLower p = "elevenlabs" →
        select_tts_engine (some p) edge false ok = "edge")
    ∧ (∀ (p : String) (edge ek : Bool), pyLower p = "openai" →
        select_tts_engine (some p) edge ek false = "edge")
    ∧ (∀ edge ek ok : Bool,
        select_tts_engine Option.none edge ek ok
          = if edge then "edge"
            else if ek then "elevenlabs"
            else if ok then "openai"
            else "edge") := by
  refine ⟨fun p edge ok h => ?_, fun p edge ek h => ?_, fun edge ek ok => ?_⟩
  · have hp : p ≠ "" := by
      intro he
      rw [he] at h
      exact absurd h (by decide)
    simp [select_tts_engine, hp, h]
  · have hp : p ≠ "" := by
      intro he
      rw [he] at h
      exact absurd h (by decide)
    simp [select_tts_engine, hp, h]
  · cases edge <;> cases ek <;> cases ok <;> rfl

/-- Witness for C5 at concrete preferences. -/
theorem tts_engine_selection_fallback_witness :
    select_tts_engine (some "ElevenLabs") false false true = "edge"
    ∧ select_tts_engine (some "openai") false true false = "edge"
    ∧ select_tts_engine Option.none false true true
        = if false then "edge"
          else if true then "elevenlabs"
          else if true then "openai"
          else "edge" :=
  ⟨tts_engine_selection_fallback.1 "ElevenLabs" false true (by decide),
   tts_engine_selection_fallback.2.1 "openai" false true (by decide),
   tts_engine_selection_fallback.2.2 false true true⟩

/-- C7: the LLM extraction strategy is passed to the crawl iff the
`GOOGLE_API_KEY` variable is set (truthy) and the strategy classes are
importable and one of the two constructor attempts succeeds; otherwise the
crawl runs with no strategy; and in both cases the record built from the
crawl outcome has the same shape, carrying the original URL. -/
theorem scrape_strategy_toggle :
    (∀ (has_classes : Bool) (key : Option String) (c1 c2 : Option Strategy),
        (strategyUsed has_classes key c1 c2).isSome
          ↔ (has_classes = true ∧ optStrTruthy key = true ∧ (c1.isSome ∨ c2.isSome)))
    ∧ (∀ (has_classes : Bool) (key : Option String) (c1 c2 : Option Strategy)
        (crawl : Option Strategy → Except String CrawlResult) (ts url : String),
        ¬ (has_classes = true ∧ optStrTruthy key = true ∧ (c1.isSome ∨ c2.isSome)) →
        scrape_single_url has_classes key c1 c2 crawl ts url
          = recordOfCrawl url ts (crawl Option.none))
    ∧ (∀ (url ts : String) (r : Except String CrawlResult),
        (recordOfCrawl url ts r).original_url = url) := by
  have hiff : ∀ (has_classes : Bool) (key : Option String) (c1 c2 : Option Strategy),
      (strategyUsed has_classes key c1 c2).isSome
        ↔ (has_classes = true ∧ optStrTruthy key = true ∧ (c1.isSome ∨ c2.isSome)) := by
    intro has_classes key c1 c2
    unfold strategyUsed
    by_cases hc : has_classes && optStrTruthy key
    · rw [if_pos hc]
      rw [Bool.and_eq_true] at hc
      cases c1 <;> cases c2 <;> simp [Option.orElse, hc.1, hc.2]
    · rw [if_neg hc]
      rw [Bool.and_eq_true] at hc
      constructor
      · intro h
        simp at h
      · intro hcon
        exact absurd ⟨hcon.1, hcon.2.1⟩ hc
  refine ⟨hiff, fun has_classes key c1 c2 crawl ts url hnot => ?_, fun url ts r => ?_⟩
  · have hnone : strategyUsed has_classes key c1 c2 = Option.none := by
      have := (hiff has_classes key c1 c2).not.mpr hnot
      cases h : strategyUsed has_classes key c1 c2
      · rfl
      · exact absurd (by rw [h]; rfl) this
    unfold scrape_single_url
    rw [hnone]
  · cases r with
    | error e => rfl
    | ok res =>
        unfold recordOfCrawl
        by_cases hs : res.success <;> simp [hs, failureRecord]

/-- Witness for C7: with no API key the crawl runs with no strategy; the
record of a failing crawl still carries the URL. -/
theorem scrape_strategy_toggle_witness :
    scrape_single_url true Option.none (some ⟨"google/gemini-2.5-flash", "k", "i"⟩)
        (Option.none : Option Strategy)
        (fun _ => Except.error "boom") "t" "https://a"
      = recordOfCrawl "https://a" "t" (Except.error "boom")
    ∧ (recordOfCrawl "https://a" "t" (Except.error "boom")).original_url = "https://a" :=
  ⟨scrape_strategy_toggle.2.1 true Option.none
      (some ⟨"google/gemini-2.5-flash", "k", "i"⟩) (Option.none : Option Strategy)
      (fun _ => Except.error "boom") "t" "https://a"
      (fun hcon => by simp [optStrTruthy] at hcon),
   scrape_strategy_toggle.2.2 "https://a" "t" (Except.error "boom")⟩

/-- C4: the parallel scrape fan-in returns exactly one record per input
URL, in input order; each record carries the original URL and a success
flag, and a task that raised an exception yields a `success = False`
record holding the exception message instead of propagating. -/
theorem scrape_fanin_per_url :
    ∀ (urls : List String) (task : ℕ → String → Except String ScrapeRecord)
      (ts : String),
      (∀ i u rec, task i u = .ok rec → rec.original_url = u) →
      (scrape_urls_async urls task ts).length = urls.length
      ∧ (∀ (i : ℕ) (hi : i < urls.length)
          (ho : i < (scrape_urls_async urls task ts).length),
          ((scrape_urls_async urls task ts).get ⟨i, ho⟩).original_url
              = urls.get ⟨i, hi⟩
          ∧ (∀ e, task i (urls.get ⟨i, hi⟩) = .error e →
              ((scrape_urls_async urls task ts).get ⟨i, ho⟩).success = false
              ∧ ((scrape_urls_async urls task ts).get ⟨i, ho⟩).error = some e)) := by
  intro urls task ts hok
  have hlen : (scrape_urls_async urls task ts).length = urls.length := by
    simp [scrape_urls_async]
  refine ⟨hlen, fun i hi ho => ?_⟩
  have hget : (scrape_urls_async urls task ts).get ⟨i, ho⟩
      = match task i (urls.get ⟨i, hi⟩) with
        | .error e => failureRecord (urls.get ⟨i, hi⟩) e ts
        | .ok result => result := by
    simp only [scrape_urls_async, List.get_eq_getElem, List.getElem_map,
      List.getElem_enum]
  cases htask : task i (urls.get ⟨i, hi⟩) with
  | error e =>
      rw [hget, htask]
      refine ⟨rfl, fun e' he' => ?_⟩
      injection he' with h
      subst h
      exact ⟨rfl, rfl⟩
  | ok result =>
      rw [hget, htask]
      refine ⟨hok i (urls.get ⟨i, hi⟩) result htask, fun e' he' => ?_⟩
      exact Except.noConfusion he'

/-- Witness for C4: a single URL whose task raised. -/
theorem scrape_fanin_per_url_witness :
    (scrape_urls_async ["https://a"] (fun _ _ => Except.error "boom") "t").length = 1 :=
  (scrape_fanin_per_url ["https://a"] (fun _ _ => Except.error "boom") "t"
      (fun _ _ _ h => nomatch h)).1

/-- A successful TTS result appends exactly one segment — the original
audio or its resampled form — whatever the current loop state. -/
theorem podcast_step_fst (resample : List ℚ → ℤ → ℤ → Option (List ℚ))
    (st : List (List ℚ) × Option ℤ) (p : List ℚ × ℤ) :
    ∃ x, (podcast_step resample st (some p)).1 = st.1 ++ [x]
      ∧ (x = p.1 ∨ ∃ r', resample p.1 p.2 r' = some x) := by
  obtain ⟨audio, rate⟩ := p
  obtain ⟨segs, rateOpt⟩ := st
  cases rateOpt with
  | none => exact ⟨audio, rfl, Or.inl rfl⟩
  | some r0 =>
      have hred : podcast_step resample (segs, some r0) (some (audio, rate))
          = if r0 = rate then (segs ++ [audio], some r0)
            else
              match resample audio rate r0 with
              | some resampled => (segs ++ [resampled], some r0)
              | Option.none => (segs ++ [audio], some rate) := rfl
      rw [hred]
      by_cases hr : r0 = rate
      · rw [if_pos hr]
        exact ⟨audio, rfl, Or.inl rfl⟩
      · rw [if_neg hr]
        cases hre : resample audio rate r0 with
        | none => exact ⟨audio, rfl, Or.inl rfl⟩
        | some resampled => exact ⟨resampled, rfl, Or.inr ⟨r0, hre⟩⟩

/-- A successful TTS result always leaves a detected sampling rate. -/
theorem podcast_step_snd (resample : List ℚ → ℤ → ℤ → Option (List ℚ))
    (st : List (List ℚ) × Option ℤ) (p : List ℚ × ℤ) :
    ((podcast_step resample st (some p)).2).isSome := by
  obtain ⟨audio, rate⟩ := p
  obtain ⟨segs, rateOpt⟩ := st
  cases rateOpt with
  | none => rfl
  | some r0 =>
      have hred : podcast_step resample (segs, some r0) (some (audio, rate))
          = if r0 = rate then (segs ++ [audio], some r0)
            else
              match resample audio rate r0 with
              | some resampled => (segs ++ [resampled], some r0)
              | Option.none => (segs ++ [audio], some rate) := rfl
      rw [hred]
      by_cases hr : r0 = rate
      · rw [if_pos hr]
        rfl
      · rw [if_neg hr]
        cases hre : resample audio rate r0 with
        | none => rfl
        | some resampled => rfl

/-- Failed entries are skipped and each success contributes exactly one
segment: the generation loop grows the segment list by the number of
successful results. -/
theorem podcast_fold_length (resample : List ℚ → ℤ → ℤ → Option (List ℚ)) :
    ∀ (results : List (Option (List ℚ × ℤ))) (st : List (List ℚ) × Option ℤ),
      ((results.foldl (podcast_step resample) st).1).length
        = st.1.length + (results.filterMap id).length := by
  intro results
  induction results with
  | nil => intro st; simp
  | cons r rest ih =>
      intro st
      cases r with
      | none =>
          rw [List.foldl_cons]
          have : podcast_step resample st Option.none = st := rfl
          rw [this]
          simpa using ih st
      | some p =>
          rw [List.foldl_cons]
          obtain ⟨x, hx, -⟩ := podcast_step_fst resample st p
          have h2 : List.filterMap id (some p :: rest) = p :: List.filterMap id rest := by
            simp
          rw [ih (podcast_step resample st (some p)), hx, h2]
          simp
          omega

/-- Once any result has succeeded (or a rate is already detected), the
loop ends with a detected sampling rate. -/
theorem podcast_fold_rate (resample : List ℚ → ℤ → ℤ → Option (List ℚ)) :
    ∀ (results : List (Option (List ℚ × ℤ))) (st : List (List ℚ) × Option ℤ),
      (st.2.isSome ∨ results.filterMap id ≠ []) →
      ((results.foldl (podcast_step resample) st).2).isSome := by
  intro results
  induction results with
  | nil =>
      intro st h
      rcases h with h | h
      · simpa using h
      · simp at h
  | cons r rest ih =>
      intro st h
      cases r with
      | none =>
          rw [List.foldl_cons]
          have hstep : podcast_step resample st Option.none = st := rfl
          rw [hstep]
          refine ih st ?_
          rcases h with h | h
          · exact Or.inl h
          · refine Or.inr ?_
            simpa using h
      | some p =>
          rw [List.foldl_cons]
          exact ih _ (Or.inl (podcast_step_snd resample st p))

/-- When every successful TTS segment and every resampled segment is a
non-empty clip, every segment collected by the loop is non-empty. -/
theorem podcast_fold_nonempty (resample : List ℚ → ℤ → ℤ → Option (List ℚ))
    (hresample : ∀ a r r' a', resample a r r' = some a' → a' ≠ []) :
    ∀ (results : List (Option (List ℚ × ℤ))) (st : List (List ℚ) × Option ℤ),
      (∀ s ∈ st.1, s ≠ []) →
      (∀ p ∈ results.filterMap id, p.1 ≠ []) →
      ∀ s ∈ (results.foldl (podcast_step resample) st).1, s ≠ [] := by
  intro results
  induction results with
  | nil => intro st hst _; simpa using hst
  | cons r rest ih =>
      intro st hst hres
      cases r with
      | none =>
          rw [List.foldl_cons]
          have hstep : podcast_step resample st Option.none = st := rfl
          rw [hstep]
          exact ih st hst (by simpa using hres)
      | some p =>
          rw [List.foldl_cons]
          obtain ⟨x, hx, hxor⟩ := podcast_step_fst resample st p
          have hp1 : p.1 ≠ [] := hres p (by simp)
          have hx_ne : x ≠ [] := by
            rcases hxor with rfl | ⟨r', hr'⟩
            · exact hp1
            · exact hresample p.1 p.2 r' x hr'
          refine ih _ ?_ ?_
          · intro s hs
            rw [hx] at hs
            rcases List.mem_append.mp hs with hs | hs
            · exact hst s hs
            · rw [List.mem_singleton] at hs
              rw [hs]
              exact hx_ne
          · intro q hq
            refine hres q ?_
            simp [hq]

theorem normalize_audio_length (xs : List ℚ) :
    (normalize_audio xs).length = xs.length := by
  unfold normalize_audio
  by_cases h : 0 < maxAbs xs <;> simp [h]

/-- A non-empty list of non-empty segments combines to non-empty audio. -/
theorem combine_audio_segments_ne_nil (segs : List (List ℚ)) (dur : ℚ) (rate : ℤ)
    (h1 : segs ≠ []) (h2 : ∀ s ∈ segs, s ≠ []) :
    combine_audio_segments segs dur rate ≠ [] := by
  obtain ⟨s, rest, rfl⟩ := List.exists_cons_of_ne_nil h1
  have hs : s ≠ [] := h2 s (List.mem_cons_self _ _)
  obtain ⟨t, ht⟩ : ∃ t, combine_loop (create_silence_audio dur rate) (s :: rest)
      = s :: t := by
    cases rest with
    | nil => exact ⟨[], rfl⟩
    | cons a b => exact ⟨_, rfl⟩
  have heq : combine_audio_segments (s :: rest) dur rate
      = normalize_audio ((s :: t).flatten) := by
    simp only [combine_audio_segments, List.isEmpty_cons, Bool.false_eq_true,
      if_false, ht]
  rw [heq]
  intro hc
  have hlen := congrArg List.length hc
  rw [normalize_audio_length, List.flatten_cons, List.length_append] at hlen
  simp at hlen
  exact hs hlen.1

/-- C6: in `create_podcast` a script entry whose TTS call fails is skipped
while every other entry is still processed (the collected segments number
exactly the successful calls), and — under an available engine, key,
client and writable output, with non-degenerate clips — the result is the
sentinel `None` exactly when no entry at all produced an audio segment. -/
theorem openai_podcast_skip_and_sentinel :
    ∀ (entries : List ScriptEntry) (api : ℕ → Option (List ℚ × ℤ))
      (resample : List ℚ → ℤ → ℤ → Option (List ℚ)) (dur : ℚ)
      (intro_music outro_music : Option (List ℚ)) (key path : String),
      (∀ i a r, api i = some (a, r) → a ≠ []) →
      (∀ a r r' a', resample a r r' = some a' → a' ≠ []) →
      ((create_podcast_loop
          (entries.enum.map fun p => text_to_speech_openai api p.1 p.2) resample).1.length
        = ((entries.enum.map fun p => text_to_speech_openai api p.1 p.2).filterMap id).length)
      ∧ (create_podcast "openai" (some key) true entries api resample dur
            intro_music outro_music (fun _ => true) path = Option.none
          ↔ ((entries.enum.map fun p => text_to_speech_openai api p.1 p.2).filterMap id
              = [])) := by
  intro entries api resample dur intro_music outro_music key path hapi hresample
  have hlen := podcast_fold_length resample
    (entries.enum.map fun p => text_to_speech_openai api p.1 p.2) ([], Option.none)
  have hmem : ∀ p ∈ (entries.enum.map fun p =>
      text_to_speech_openai api p.1 p.2).filterMap id, p.1 ≠ [] := by
    intro p hp
    rw [List.mem_filterMap] at hp
    obtain ⟨o, ho, hid⟩ := hp
    cases o with
    | none => cases hid
    | some q =>
        have hq : q = p := by simpa using hid
        subst hq
        rw [List.mem_map] at ho
        obtain ⟨pr, _, hto⟩ := ho
        unfold text_to_speech_openai at hto
        by_cases htr : pr.2.text.trim = ""
        · rw [if_pos htr] at hto
          cases hto
        · rw [if_neg htr] at hto
          exact hapi pr.1 q.1 q.2 (by rw [hto])
  have hguards : create_podcast "openai" (some key) true entries api resample dur
      intro_music outro_music (fun _ => true) path
      = (let st := create_podcast_loop
            (entries.enum.map fun p => text_to_speech_openai api p.1 p.2) resample
         if st.1.isEmpty then Option.none
         else
           match st.2 with
           | Option.none => Option.none
           | some rate =>
               if (combine_audio_segments st.1 dur rate).isEmpty then Option.none
               else some path) := by
    unfold create_podcast
    rw [if_neg (by decide), if_neg (by simp), if_neg (by simp)]
    simp only []
    cases hS : (create_podcast_loop
        (entries.enum.map fun p => text_to_speech_openai api p.1 p.2) resample).2 <;>
      simp [hS]
  constructor
  · simpa [create_podcast_loop] using hlen
  · rw [hguards]
    by_cases hfm : (entries.enum.map fun p =>
        text_to_speech_openai api p.1 p.2).filterMap id = []
    · have h0 : (create_podcast_loop
          (entries.enum.map fun p => text_to_speech_openai api p.1 p.2) resample).1.length
          = 0 := by
        rw [create_podcast_loop, hlen, hfm]
        rfl
      have hE : (create_podcast_loop
          (entries.enum.map fun p => text_to_speech_openai api p.1 p.2) resample).1.isEmpty := by
        rw [List.isEmpty_iff, ← List.length_eq_zero]
        exact h0
      simp [hE, hfm]
    · have h0 : (create_podcast_loop
          (entries.enum.map fun p => text_to_speech_openai api p.1 p.2) resample).1 ≠ [] := by
        intro hc
        rw [create_podcast_loop] at hc
        have hthis := hlen
        rw [hc] at hthis
        simp only [List.length_nil, List.length_nil] at hthis
        have hl0 : (List.filterMap id (List.map
            (fun p => text_to_speech_openai api p.1 p.2) entries.enum)).length = 0 := by
          omega
        exact hfm (List.eq_nil_of_length_eq_zero hl0)
      have hE : (create_podcast_loop
          (entries.enum.map fun p => text_to_speech_openai api p.1 p.2) resample).1.isEmpty
          = false := by
        rw [List.isEmpty_eq_false]
        exact h0
      have hrate : ((create_podcast_loop
          (entries.enum.map fun p => text_to_speech_openai api p.1 p.2) resample).2).isSome :=
        podcast_fold_rate resample _ _ (Or.inr hfm)
      obtain ⟨rate, hr⟩ := Option.isSome_iff_exists.mp hrate
      have hsegs : ∀ s ∈ (create_podcast_loop
          (entries.enum.map fun p => text_to_speech_openai api p.1 p.2) resample).1,
          s ≠ [] :=
        podcast_fold_nonempty resample hresample _ _ (by simp) hmem
      have hfa : combine_audio_segments (create_podcast_loop
          (entries.enum.map fun p => text_to_speech_openai api p.1 p.2) resample).1 dur rate
          ≠ [] := combine_audio_segments_ne_nil _ dur rate h0 hsegs
      have hfaE : (combine_audio_segments (create_podcast_loop
          (entries.enum.map fun p => text_to_speech_openai api p.1 p.2) resample).1 dur rate).isEmpty
          = false := by
        rw [List.isEmpty_eq_false]
        exact hfa
      simp only [hE, Bool.false_eq_true, if_false, hr, hfaE]
      constructor
      · intro h
        exact Option.noConfusion h
      · intro h
        exact absurd h hfm

/-- Witness for C6: a single entry whose TTS call succeeds. -/
theorem openai_podcast_witness :
    ((create_podcast_loop
        ([(⟨"hi", 1⟩ : ScriptEntry)].enum.map fun p =>
          text_to_speech_openai (fun _ => some ([(1 : ℚ)], (24000 : ℤ))) p.1 p.2)
        (fun _ _ _ => Option.none)).1.length
      = (([(⟨"hi", 1⟩ : ScriptEntry)].enum.map fun p =>
          text_to_speech_openai (fun _ => some ([(1 : ℚ)], (24000 : ℤ))) p.1 p.2).filterMap
            id).length)
    ∧ (create_podcast "openai" (some "k") true [⟨"hi", 1⟩]
          (fun _ => some ([(1 : ℚ)], (24000 : ℤ))) (fun _ _ _ => Option.none) (7/10)
          Option.none Option.none (fun _ => true) "out.wav" = Option.none
        ↔ (([(⟨"hi", 1⟩ : ScriptEntry)].enum.map fun p =>
            text_to_speech_openai (fun _ => some ([(1 : ℚ)], (24000 : ℤ))) p.1 p.2).filterMap
              id = [])) :=
  openai_podcast_skip_and_sentinel [⟨"hi", 1⟩]
    (fun _ => some ([(1 : ℚ)], (24000 : ℤ))) (fun _ _ _ => Option.none) (7/10)
    Option.none Option.none "k" "out.wav"
    (fun i a r h => by
      injection h with h'
      injection h' with ha hr
      subst ha
      simp)
    (fun a r r' a' h => Option.noConfusion h)

/-- A truthy `d.get(k, None)` means the key is present. -/
theorem pyGet_isSome_of_truthy (d : List (String × PyVal)) (k : String)
    (h : (pyGetD d k PyVal.none).truthy = true) : (pyGet d k).isSome := by
  cases hpg : pyGet d k with
  | none =>
      rw [pyGetD, hpg] at h
      cases h
  | some v => rfl

/-- C9: `audio_generate_agent_run` reaches `save_session` exactly on the
success path — a truthy dict script with truthy sections, at least one
usable dialog entry, and a TTS call that returned a path rather than
raising or returning `None` — and the state it saves maps "stage" to
"audio", "show_audio_for_confirmation" to `True`, and "audio_url" to the
generated file name; on every failure path nothing is saved. -/
theorem audio_run_saves_only_on_success :
    ∀ (state : List (String × PyVal)) (edge ek ok : Bool)
      (outcome : Except String (Option String)),
      ((audio_generate_agent_run state edge ek ok outcome).2.isSome
        ↔ ((pyGetD state "generated_script" (.dict [])).truthy = true
           ∧ (pyGetD state "generated_script" (.dict [])).isDict = true
           ∧ (pyGetD (pyGetD state "generated_script" (.dict [])).asDict
                "sections" PyVal.none).truthy = true
           ∧ buildEntries (pyGetD state "generated_script" (.dict [])).asDict ≠ []
           ∧ ∃ p, outcome = .ok (some p)))
      ∧ (∀ st', (audio_generate_agent_run state edge ek ok outcome).2 = some st' →
          pyGet st' "stage" = some (.str "audio")
          ∧ pyGet st' "show_audio_for_confirmation" = some (.bool true)
          ∧ ∃ u, pyGet st' "audio_url" = some (.str u)) := by
  intro state edge ek ok outcome
  by_cases h1 : (pyGetD state "generated_script" (.dict [])).truthy = true
  · by_cases h2 : (pyGetD state "generated_script" (.dict [])).isDict = true
    · by_cases h3 : (pyGetD (pyGetD state "generated_script" (.dict [])).asDict
          "sections" PyVal.none).truthy = true
      · have h5 : (pyGet (pyGetD state "generated_script" (.dict [])).asDict
            "sections").isSome := pyGet_isSome_of_truthy _ _ h3
        by_cases h4 : (buildEntries (pyGetD state "generated_script" (.dict [])).asDict).isEmpty
        · have h4' : buildEntries (pyGetD state "generated_script" (.dict [])).asDict = [] :=
            List.isEmpty_iff.mp h4
          cases outcome <;>
            simp [audio_generate_agent_run, h1, h2, h3, h4, h4', h5]
        · have h4' : buildEntries (pyGetD state "generated_script" (.dict [])).asDict ≠ [] := by
            rw [← List.isEmpty_eq_false] at *
            simpa using h4
          cases outcome with
          | error e =>
              simp [audio_generate_agent_run, h1, h2, h3, h4, h4', h5]
          | ok po =>
              cases po with
              | none =>
                  simp [audio_generate_agent_run, h1, h2, h3, h4, h4', h5]
              | some p =>
                  constructor
                  · simp [audio_generate_agent_run, h1, h2, h3, h4, h4', h5]
                  · intro st' hst'
                    have hrun : (audio_generate_agent_run state edge ek ok
                        (.ok (some p))).2
                        = some (pySet (pySet (pySet state "stage" (.str "audio"))
                            "audio_url" (.str (pyBasename p)))
                            "show_audio_for_confirmation" (.bool true)) := by
                      simp [audio_generate_agent_run, h1, h2, h3, h4, h5]
                    rw [hrun] at hst'
                    have hsaved := Option.some.inj hst'
                    subst hsaved
                    refine ⟨?_, ?_, ⟨pyBasename p, ?_⟩⟩
                    · rw [pyGet_pySet_other _ _ _ _ (by decide),
                        pyGet_pySet_other _ _ _ _ (by decide),
                        pyGet_pySet_same]
                    · rw [pyGet_pySet_same]
                    · rw [pyGet_pySet_other _ _ _ _ (by decide),
                        pyGet_pySet_same]
      · cases outcome <;> simp [audio_generate_agent_run, h1, h2, h3]
    · by_cases h3 : (pyGetD (pyGetD state "generated_script" (.dict [])).asDict
          "sections" PyVal.none).truthy = true
      · cases outcome <;> simp [audio_generate_agent_run, h1, h2, h3]
      · cases outcome <;> simp [audio_generate_agent_run, h1, h2, h3]
  · cases outcome <;> simp [audio_generate_agent_run, h1]

/-- Witness for C9: a complete one-dialog script and a successful TTS call
save the success flags; the same state with a raising TTS call saves
nothing. -/
theorem audio_run_saves_witness :
    (audio_generate_agent_run demoSessionState true false false
        (.ok (some "podcasts/audio/p.mp3"))).2.isSome
    ∧ pyGet (pySet (pySet (pySet demoSessionState "stage" (.str "audio"))
          "audio_url" (.str "p.mp3")) "show_audio_for_confirmation" (.bool true))
        "stage" = some (.str "audio")
    ∧ ¬ (audio_generate_agent_run demoSessionState true false false
        (.error "boom")).2.isSome := by
  refine ⟨?_, ?_, ?_⟩
  · exact (audio_run_saves_only_on_success demoSessionState true false false
      (.ok (some "podcasts/audio/p.mp3"))).1.mpr
      ⟨by decide, by decide, by decide, by decide, ⟨"podcasts/audio/p.mp3", rfl⟩⟩
  · exact ((audio_run_saves_only_on_success demoSessionState true false false
      (.ok (some "podcasts/audio/p.mp3"))).2 _ rfl).1
  · intro hcon
    have h := (audio_run_saves_only_on_success demoSessionState true false false
      (.error "boom")).1.mp hcon
    obtain ⟨-, -, -, -, p, hp⟩ := h
    cases hp

end AiAgents
